import Mathlib

/-!
Verification of the LightSensor acquisition-and-statistics pipeline
(`src/LightSensor.py`), shallowly embedded in Lean 4.

Numeric model: the Arduino transmits integers; after gain normalization the
stored values are exact rationals (`ℚ`), and square roots (numpy `sqrt`) are
modelled over `ℝ`.  A Python float that may be NaN is modelled as `Option ℝ`
(`none` = NaN).  A Python call that may raise is modelled as
`Except PyError α`.
-/

instance {ε α : Type} [DecidableEq ε] [DecidableEq α] : DecidableEq (Except ε α) :=
  fun a b =>
    match a, b with
    | .ok x, .ok y =>
      if h : x = y then .isTrue (congrArg _ h)
      else .isFalse (by intro hh; cases hh; exact h rfl)
    | .error x, .error y =>
      if h : x = y then .isTrue (congrArg _ h)
      else .isFalse (by intro hh; cases hh; exact h rfl)
    | .ok _, .error _ => .isFalse (by intro hh; cases hh)
    | .error _, .ok _ => .isFalse (by intro hh; cases hh)

namespace LightSensor

/-- The Python exceptions relevant to this module, as caught by the
`except` clauses of `read` (plus `ZeroDivisionError` from `average` and
`UnboundLocalError` from the else-less branch chain of `convertGain` and
the loop of `integerError`). -/
inductive PyError
  | valueError
  | indexError
  | serialException
  | zeroDivisionError
  | unboundLocalError
  deriving DecidableEq, Repr

/-- Python `str.rstrip()`: drop trailing whitespace. -/
def rstrip (s : String) : String :=
  String.mk (List.reverse (List.dropWhile Char.isWhitespace s.data.reverse))

/-- Helper for `split(sep = ' ')`: splitting on every single space, so that
consecutive spaces yield empty fields, exactly as in Python. -/
def splitSpaceAux : List Char → List Char → List String
  | [], acc => [String.mk acc.reverse]
  | c :: cs, acc =>
    if c = ' ' then String.mk acc.reverse :: splitSpaceAux cs []
    else splitSpaceAux cs (c :: acc)

/-- Python `str.split(sep = ' ')`. -/
def splitSpace (s : String) : List String :=
  splitSpaceAux s.data []

/-- Decimal value of a digit character, `none` on a non-digit. -/
def digitVal (c : Char) : Option ℕ :=
  if c.isDigit then some (c.toNat - 48) else none

/-- Accumulate decimal digits; any non-digit makes the parse fail. -/
def digitsToNatAux : Option ℕ → List Char → Option ℕ
  | acc, [] => acc
  | acc, c :: cs =>
    match acc, digitVal c with
    | some a, some d => digitsToNatAux (some (10 * a + d)) cs
    | _, _ => none

/-- A nonempty all-digit string as a natural number. -/
def digitsToNat (l : List Char) : Option ℕ :=
  if l = [] then none else digitsToNatAux (some 0) l

/-- Python `int(str)` on the forms the wire protocol can carry: an optional
sign followed by decimal digits; anything else raises `ValueError`
(modelled as `none`). -/
def pyInt (s : String) : Option ℤ :=
  match s.data with
  | '-' :: rest => (digitsToNat rest).map (fun n => -(n : ℤ))
  | '+' :: rest => (digitsToNat rest).map (fun n => (n : ℤ))
  | l => (digitsToNat l).map (fun n => (n : ℤ))

/-- A raw decoded frame, as returned by `sensorRead`:
`full`, `ir`, `time` parsed as integers, `visible = full - ir`,
`seconds = time / 1000` (real division), and the gain-code string. -/
structure RawFrame where
  full : ℤ
  ir : ℤ
  visible : ℤ
  seconds : ℚ
  gainstr : String
  deriving DecidableEq, Repr

/-- The unpack-and-parse part of `sensorRead`, applied to the fields obtained
by splitting the line on single spaces.  Python raises `ValueError` both when
the tuple unpacking `fullstr, irstr, timestr, gainstr = ....split(sep=' ')`
receives a field count other than four, and when `int(...)` fails on a
non-integer field. -/
def sensorReadFields : List String → Except PyError RawFrame
  | [fullstr, irstr, timestr, gainstr] =>
    match pyInt fullstr, pyInt irstr, pyInt timestr with
    | some full, some ir, some time =>
        .ok ⟨full, ir, full - ir, (time : ℚ) / 1000, gainstr⟩
    | _, _, _ => .error .valueError
  | _ => .error .valueError

/-- Function `sensorRead`, with the line already received from the serial port:
strips the trailing newline and splits on single-space separators
(`lightstr.rstrip().split(sep = ' ')`). -/
def sensorRead (lightstr : String) : Except PyError RawFrame :=
  sensorReadFields (splitSpace (rstrip lightstr))

/-- Function `convertGain`: the four-branch `if/elif` chain.  No `else` branch exists,
so a gain string outside the four codes leaves `gain`, `full`, `ir`,
`visible` unassigned and the `return` raises `UnboundLocalError`. -/
def convertGain (gainstr : String) (fullval irval visval : ℚ) :
    Except PyError (String × ℚ × ℚ × ℚ) :=
  if gainstr = "48" then
    .ok ("MAX", fullval / 9876, irval / 9876, visval / 9876)
  else if gainstr = "32" then
    .ok ("HIGH", fullval / 428, irval / 428, visval / 428)
  else if gainstr = "16" then
    .ok ("MED", fullval / 25, irval / 25, visval / 25)
  else if gainstr = "0" then
    .ok ("LOW", fullval, irval, visval)
  else
    .error .unboundLocalError

/-- The gain-level multipliers exactly as the spec's fixed table writes them:
LOW→1, MED→25, HIGH→428, MAX→9876 (keyed by level label).  Spec-side
definition, compared against `convertGain`. -/
def specMultiplier : String → ℚ
  | "MED" => 25
  | "HIGH" => 428
  | "MAX" => 9876
  | _ => 1

/-- The spec's bijection from wire gain codes to level labels. -/
def specLevelOfCode : String → String
  | "0" => "LOW"
  | "16" => "MED"
  | "32" => "HIGH"
  | "48" => "MAX"
  | _ => ""

/-- Function `average` on one channel: `sum(vals) / len(vals)`.  With an empty list
Python raises `ZeroDivisionError`.  The source computes the three channels
with three identical such expressions. -/
def average (xs : List ℚ) : Except PyError ℚ :=
  if xs.length = 0 then .error .zeroDivisionError
  else .ok (xs.sum / xs.length)

/-- Sum of squared deviations from the mean, the numerator of the ddof=1
variance computed by `np.std(..., ddof=1)`. -/
def sqDevSum (xs : List ℚ) : ℚ :=
  (xs.map (fun x => (x - xs.sum / xs.length) ^ 2)).sum

/-- Numpy `np.std(xs, ddof=1)` = `sqrt(sqDevSum / (n - 1))`.  With `n ≤ 1` numpy
divides 0 by 0 (or takes the mean of an empty array), emits a
RuntimeWarning and returns NaN (`none`) — it does not raise. -/
noncomputable def npStdD1 (xs : List ℚ) : Option ℝ :=
  if xs.length ≤ 1 then none
  else some (Real.sqrt ((sqDevSum xs / ((xs.length : ℚ) - 1) : ℚ) : ℝ))

/-- Function `standardDeviation` on one channel: numpy never raises here, so the
call always returns, possibly with NaN. -/
noncomputable def standardDeviation (xs : List ℚ) : Except PyError (Option ℝ) :=
  .ok (npStdD1 xs)

/-- Function `fluctuationError` on one channel: `std / np.sqrt(len(xs))`;
a NaN standard deviation propagates to a NaN standard error. -/
noncomputable def fluctuationError (xs : List ℚ) : Except PyError (Option ℝ) :=
  .ok ((npStdD1 xs).map (fun s => s / Real.sqrt (xs.length : ℝ)))

/-- One step of the `for gain in self.gainhist` loop of `integerError`: each
recognized label overwrites the error variables (`0.5` divided by that
gain's multiplier); an unrecognized label leaves them untouched. -/
def integerErrorStep (e : Option ℚ) (gain : String) : Option ℚ :=
  if gain = "LOW" then some (1/2)
  else if gain = "MED" then some (1/2/25)
  else if gain = "HIGH" then some (1/2/428)
  else if gain = "MAX" then some (1/2/9876)
  else e

/-- Function `integerError` on one channel: the loop over the whole gain history; the
returned value is whatever the last assignment left, and if no iteration
assigned (empty history) the `return` raises `UnboundLocalError`. -/
def integerError (gainhist : List String) : Except PyError ℚ :=
  match gainhist.foldl integerErrorStep none with
  | none => .error .unboundLocalError
  | some q => .ok q

/-- Function `totalError` on one channel:
`sqrt(fluctuationError ** 2 + integerError ** 2)`; an exception raised by
either part propagates, and a NaN standard error makes the total NaN. -/
noncomputable def totalError (xs : List ℚ) (gainhist : List String) :
    Except PyError (Option ℝ) :=
  match fluctuationError xs with
  | .error e => .error e
  | .ok fe =>
    match integerError gainhist with
    | .error e => .error e
    | .ok q =>
      match fe with
      | none => .ok none
      | some se => .ok (some (Real.sqrt (se ^ 2 + (q : ℝ) ^ 2)))

/-- The five parallel lists of the sensor object. -/
structure Buffer where
  fullvals : List ℚ
  irvals : List ℚ
  visvals : List ℚ
  timevals : List ℚ
  gainhist : List String
  deriving DecidableEq, Repr

/-- A buffer with all five lists empty. -/
def Buffer.empty : Buffer := ⟨[], [], [], [], []⟩

/-- Function `listclear`: clears each of the list variables. -/
def listclear (_b : Buffer) : Buffer := Buffer.empty

/-- The five `append` calls of the loop body: one normalized sample with its
timestamp and gain label. -/
def Buffer.push (b : Buffer) (full ir visible secs : ℚ) (gain : String) : Buffer :=
  ⟨b.fullvals ++ [full], b.irvals ++ [ir], b.visvals ++ [visible],
   b.timevals ++ [secs], b.gainhist ++ [gain]⟩

/-- One event delivered by the serial connection: a line of text returned by
`readline`, or a `SerialException` raised by it (connection lost). -/
inductive ReadEvent
  | line : String → ReadEvent
  | serialExc : ReadEvent
  deriving DecidableEq, Repr

/-- The decode-and-normalize part of the loop body of `read`: `sensorRead`
followed by `convertGain`; an exception from either propagates.  Returns
(gain label, full, ir, visible, seconds). -/
def decodeFrame (lightstr : String) : Except PyError (String × ℚ × ℚ × ℚ × ℚ) :=
  match sensorRead lightstr with
  | .error e => .error e
  | .ok r =>
    match convertGain r.gainstr (r.full : ℚ) (r.ir : ℚ) (r.visible : ℚ) with
    | .error e => .error e
    | .ok (gain, full, ir, visible) => .ok (gain, full, ir, visible, r.seconds)

/-- The `while` loop of `read`, driven by the events the connection delivers
before the wall-clock deadline ends the list.  The `except` clauses:
`ValueError` and `IndexError` drop the frame and continue; `SerialException`
and the final catch-all `except` break out of the loop. -/
def readLoop : List ReadEvent → Buffer → Buffer
  | [], st => st
  | .serialExc :: _, st => st
  | .line l :: rest, st =>
    match decodeFrame l with
    | .ok (gain, full, ir, visible, secs) =>
        readLoop rest (st.push full ir visible secs gain)
    | .error .valueError => readLoop rest st
    | .error .indexError => readLoop rest st
    | .error _ => st

/-- Function `read`: flushes pending input, clears the buffer, then runs the loop. -/
def read (events : List ReadEvent) (b : Buffer) : Buffer :=
  readLoop events (listclear b)

/-- The in-place background subtraction of `collectData`
(`vals[i] -= background` at every index of a channel list). -/
def subtractAll (background : ℚ) (xs : List ℚ) : List ℚ :=
  xs.map (fun x => x - background)

/-- The equal-length invariant of the five parallel buffer lists. -/
def Buffer.sameLengths (b : Buffer) : Prop :=
  b.irvals.length = b.fullvals.length ∧
  b.visvals.length = b.fullvals.length ∧
  b.timevals.length = b.fullvals.length ∧
  b.gainhist.length = b.fullvals.length

/-! ### Helper lemmas (shared across the claims) -/

theorem sensorRead_fourField_example :
    sensorRead "100 40 2500 16" = .ok ⟨100, 40, 60, 5/2, "16"⟩ := by
  have h : splitSpace (rstrip "100 40 2500 16") = ["100", "40", "2500", "16"] := by
    decide
  have h1 : pyInt "100" = some 100 := by decide
  have h2 : pyInt "40" = some 40 := by decide
  have h3 : pyInt "2500" = some 2500 := by decide
  rw [sensorRead, h, sensorReadFields, h1, h2, h3]
  norm_num [RawFrame.mk.injEq]

theorem sensorRead_threeField_example :
    sensorRead "100 40 2500" = .error .valueError := by
  have h : splitSpace (rstrip "100 40 2500") = ["100", "40", "2500"] := by decide
  rw [sensorRead, h]
  decide

theorem convertGain_med_example :
    convertGain "16" 100 40 60 = .ok ("MED", 4, 8/5, 12/5) := by
  have ha : ("16" : String) ≠ "48" := by decide
  have hb : ("16" : String) ≠ "32" := by decide
  rw [convertGain, if_neg ha, if_neg hb, if_pos rfl]
  norm_num

theorem convertGain_of_not_valid {code : String} (h48 : code ≠ "48")
    (h32 : code ≠ "32") (h16 : code ≠ "16") (h0 : code ≠ "0") (f i v : ℚ) :
    convertGain code f i v = .error .unboundLocalError := by
  rw [convertGain, if_neg h48, if_neg h32, if_neg h16, if_neg h0]

theorem sensorRead_unknownGain_example :
    sensorRead "100 40 2500 99" = .ok ⟨100, 40, 60, 5/2, "99"⟩ := by
  have h : splitSpace (rstrip "100 40 2500 99") = ["100", "40", "2500", "99"] := by
    decide
  have h1 : pyInt "100" = some 100 := by decide
  have h2 : pyInt "40" = some 40 := by decide
  have h3 : pyInt "2500" = some 2500 := by decide
  rw [sensorRead, h, sensorReadFields, h1, h2, h3]
  norm_num [RawFrame.mk.injEq]

theorem decodeFrame_unknownGain_example :
    decodeFrame "100 40 2500 99" = .error .unboundLocalError := by
  have hcg : ∀ f i v : ℚ, convertGain "99" f i v = .error .unboundLocalError :=
    fun f i v =>
      convertGain_of_not_valid (by decide) (by decide) (by decide) (by decide) f i v
  rw [decodeFrame, sensorRead_unknownGain_example]
  simp [hcg]

/-! ### The claims -/

/-- C1: for every valid gain code and raw (full, ir, visible) values,
`convertGain` returns each raw value divided by the fixed multiplier of that
gain level — 1 for LOW (code "0"), 25 for MED (code "16"), 428 for HIGH
(code "32"), 9876 for MAX (code "48") — together with the corresponding
level label.  It is a pure Lean function, hence deterministic and without
side effects. -/
theorem claim1_convertGain_matches_table (code : String)
    (hcode : code ∈ (["0", "16", "32", "48"] : List String)) (f i v : ℚ) :
    convertGain code f i v =
      .ok (specLevelOfCode code,
        f / specMultiplier (specLevelOfCode code),
        i / specMultiplier (specLevelOfCode code),
        v / specMultiplier (specLevelOfCode code)) := by
  fin_cases hcode <;>
    simp [convertGain, specLevelOfCode, specMultiplier]

theorem claim1_witness :
    ("16" : String) ∈ (["0", "16", "32", "48"] : List String) ∧
    convertGain "16" 100 40 60 =
      .ok (specLevelOfCode "16",
        100 / specMultiplier (specLevelOfCode "16"),
        40 / specMultiplier (specLevelOfCode "16"),
        60 / specMultiplier (specLevelOfCode "16")) :=
  ⟨by decide, claim1_convertGain_matches_table "16" (by decide) 100 40 60⟩

/-- C4: for every gain code outside the four recognized values, `convertGain`
fails (the UnknownGain condition, surfaced as the `UnboundLocalError` of the
else-less branch chain) instead of silently propagating a previous gain's
scale factor; in particular decoding the line "100 40 2500 99" fails with
that condition. -/
theorem claim4_unknown_gain_is_error :
    (∀ code : String, code ∉ (["0", "16", "32", "48"] : List String) →
      ∀ f i v : ℚ, convertGain code f i v = .error .unboundLocalError) ∧
    decodeFrame "100 40 2500 99" = .error .unboundLocalError := by
  refine ⟨fun code hc f i v => ?_, decodeFrame_unknownGain_example⟩
  have h48 : code ≠ "48" := fun h => hc (by rw [h]; decide)
  have h32 : code ≠ "32" := fun h => hc (by rw [h]; decide)
  have h16 : code ≠ "16" := fun h => hc (by rw [h]; decide)
  have h0 : code ≠ "0" := fun h => hc (by rw [h]; decide)
  exact convertGain_of_not_valid h48 h32 h16 h0 f i v

theorem claim4_witness :
    ("99" : String) ∉ (["0", "16", "32", "48"] : List String) ∧
    convertGain "99" 100 40 60 = .error .unboundLocalError :=
  ⟨by decide, claim4_unknown_gain_is_error.1 "99" (by decide) 100 40 60⟩

/-- C5: a well-formed four-field line is parsed with full, ir, time as
integers, visible = full − ir and seconds = time/1000 (real division);
decoding "100 40 2500 16" yields raw (100, 40, 60, 2.5, "16"), and
normalization yields (4.0, 1.6, 2.4) with level MED. -/
theorem claim5_wellformed_decode :
    (∀ fstr istr tstr gstr : String, ∀ f i t : ℤ,
      pyInt fstr = some f → pyInt istr = some i → pyInt tstr = some t →
      sensorReadFields [fstr, istr, tstr, gstr] =
        .ok ⟨f, i, f - i, (t : ℚ) / 1000, gstr⟩) ∧
    sensorRead "100 40 2500 16" = .ok ⟨100, 40, 60, 5/2, "16"⟩ ∧
    convertGain "16" 100 40 60 = .ok ("MED", 4, 8/5, 12/5) := by
  refine ⟨fun fstr istr tstr gstr f i t hf hi ht => ?_,
    sensorRead_fourField_example, convertGain_med_example⟩
  rw [sensorReadFields, hf, hi, ht]

theorem claim5_witness :
    pyInt "2500" = some 2500 ∧
    sensorReadFields ["100", "40", "2500", "16"] =
      .ok ⟨100, 40, 100 - 40, ((2500 : ℤ) : ℚ) / 1000, "16"⟩ :=
  ⟨by decide, claim5_wellformed_decode.1 "100" "40" "2500" "16" 100 40 2500
    (by decide) (by decide) (by decide)⟩

/-- C6: a line with a field count other than four, or a numeric field that is
not integer-parseable, fails with the MalformedFrame condition (Python's
`ValueError`), which the acquisition loop catches, drops the frame and
continues; in particular the three-field line "100 40 2500" fails that
way. -/
theorem claim6_malformed_frame :
    (∀ fields : List String, fields.length ≠ 4 →
      sensorReadFields fields = .error .valueError) ∧
    (∀ fstr istr tstr gstr : String,
      pyInt fstr = none ∨ pyInt istr = none ∨ pyInt tstr = none →
      sensorReadFields [fstr, istr, tstr, gstr] = .error .valueError) ∧
    sensorRead "100 40 2500" = .error .valueError ∧
    (∀ (l : String) (rest : List ReadEvent) (st : Buffer),
      sensorRead l = .error .valueError →
      readLoop (.line l :: rest) st = readLoop rest st) := by
  refine ⟨fun fields hlen => ?_, fun fstr istr tstr gstr h => ?_,
    sensorRead_threeField_example, fun l rest st h => ?_⟩
  · rcases fields with _ | ⟨a, _ | ⟨b, _ | ⟨c, _ | ⟨d, _ | ⟨e, r⟩⟩⟩⟩⟩ <;>
      simp_all [sensorReadFields]
  · rcases h with h | h | h
    · rw [sensorReadFields, h]
    · rw [sensorReadFields, h]
      cases hpf : pyInt fstr <;> rfl
    · rw [sensorReadFields, h]
      cases hpf : pyInt fstr
      · rfl
      · cases hpi : pyInt istr <;> rfl
  · have hd : decodeFrame l = .error .valueError := by rw [decodeFrame, h]
    rw [readLoop, hd]

theorem claim6_witness :
    sensorRead "100 40 2500" = .error .valueError ∧
    readLoop [.line "100 40 2500", .serialExc] Buffer.empty =
      readLoop [.serialExc] Buffer.empty :=
  ⟨sensorRead_threeField_example,
    claim6_malformed_frame.2.2.2 "100 40 2500" [.serialExc] Buffer.empty
      sensorRead_threeField_example⟩

/-- C10: a gain string outside the four codes takes none of the branches of
`convertGain`, so the result variables stay unassigned and the call fails
with `UnboundLocalError`; in the acquisition loop that failure reaches only
the final catch-all handler, which terminates the whole loop (keeping the
buffer collected so far, and ignoring every later event) instead of dropping
the frame and continuing. -/
theorem claim10_unbound_local_breaks_loop :
    (∀ code : String, code ∉ (["0", "16", "32", "48"] : List String) →
      ∀ f i v : ℚ, convertGain code f i v = .error .unboundLocalError) ∧
    (∀ (l : String) (rest : List ReadEvent) (st : Buffer),
      decodeFrame l = .error .unboundLocalError →
      readLoop (.line l :: rest) st = st) := by
  constructor
  · intro code hc f i v
    have h48 : code ≠ "48" := fun h => hc (by rw [h]; decide)
    have h32 : code ≠ "32" := fun h => hc (by rw [h]; decide)
    have h16 : code ≠ "16" := fun h => hc (by rw [h]; decide)
    have h0 : code ≠ "0" := fun h => hc (by rw [h]; decide)
    exact convertGain_of_not_valid h48 h32 h16 h0 f i v
  · intro l rest st hd
    rw [readLoop, hd]

theorem claim10_witness :
    decodeFrame "100 40 2500 99" = .error .unboundLocalError ∧
    readLoop [.line "100 40 2500 99", .line "100 40 2500 16"]
        ⟨[1], [2], [3], [4], ["LOW"]⟩ =
      ⟨[1], [2], [3], [4], ["LOW"]⟩ :=
  ⟨decodeFrame_unknownGain_example,
    claim10_unbound_local_breaks_loop.2 "100 40 2500 99"
      [.line "100 40 2500 16"] ⟨[1], [2], [3], [4], ["LOW"]⟩
      decodeFrame_unknownGain_example⟩

/-- C3 counterexample: with one sample (fewer than two), the
`standardDeviation` call does not fail with an error — numpy returns NaN
(modelled `none`) to the caller as an ordinary value. -/
theorem claim3_counterexample :
    standardDeviation [(5 : ℚ)] = Except.ok Option.none := by
  rw [standardDeviation, npStdD1, if_pos (by decide)]

/-- C3 amended: requesting the per-channel mean on an empty buffer fails with
the EmptyBuffer condition (Python's `ZeroDivisionError`), never returning 0
or NaN; but requesting the Bessel-corrected standard deviation with fewer
than two samples does NOT fail — numpy emits a RuntimeWarning and returns
NaN to the caller. -/
theorem claim3_empty_buffer_amended :
    average ([] : List ℚ) = .error .zeroDivisionError ∧
    (∀ xs : List ℚ, xs.length ≤ 1 → standardDeviation xs = .ok none) := by
  refine ⟨rfl, fun xs h => ?_⟩
  rw [standardDeviation, npStdD1, if_pos h]

theorem claim3_witness :
    ([(7 : ℚ)] : List ℚ).length ≤ 1 ∧ standardDeviation [(7 : ℚ)] = .ok none :=
  ⟨by decide, claim3_empty_buffer_amended.2 [(7 : ℚ)] (by decide)⟩

theorem subtractAll_sum (background : ℚ) (xs : List ℚ) :
    (subtractAll background xs).sum = xs.sum - xs.length * background := by
  induction xs with
  | nil => simp [subtractAll]
  | cons a l ih =>
    simp only [subtractAll, List.map_cons, List.sum_cons, List.length_cons] at *
    push_cast
    rw [ih]
    ring

/-- C7: background subtraction is linear: for a non-empty channel list,
subtracting a baseline from every sample in place (as `collectData` does
with the stored background) and then taking `average` yields exactly the
unsubtracted mean minus the baseline. -/
theorem claim7_background_subtraction_linear (xs : List ℚ) (background : ℚ)
    (h : xs ≠ []) :
    average (subtractAll background xs) =
      .ok (xs.sum / xs.length - background) ∧
    average xs = .ok (xs.sum / xs.length) := by
  have hlen : xs.length ≠ 0 := fun hc => h (List.eq_nil_of_length_eq_zero hc)
  have hsub : (subtractAll background xs).length = xs.length := by
    simp [subtractAll]
  have hsum := subtractAll_sum background xs
  constructor
  · rw [average, if_neg (by rw [hsub]; exact hlen), hsub, hsum]
    congr 1
    have hq : (xs.length : ℚ) ≠ 0 := Nat.cast_ne_zero.mpr hlen
    field_simp
  · rw [average, if_neg hlen]

theorem claim7_witness :
    average (subtractAll 2 ([1, 2, 3] : List ℚ)) =
      .ok (([1, 2, 3] : List ℚ).sum / (([1, 2, 3] : List ℚ).length : ℚ) - 2) ∧
    average ([1, 2, 3] : List ℚ) =
      .ok (([1, 2, 3] : List ℚ).sum / (([1, 2, 3] : List ℚ).length : ℚ)) :=
  claim7_background_subtraction_linear [1, 2, 3] 2 (by decide)

theorem Buffer.push_sameLengths {b : Buffer} (h : b.sameLengths)
    (full ir visible secs : ℚ) (gain : String) :
    (b.push full ir visible secs gain).sameLengths := by
  obtain ⟨hi, hv, ht, hg⟩ := h
  simp [Buffer.push, Buffer.sameLengths, hi, hv, ht, hg]

theorem readLoop_sameLengths (events : List ReadEvent) (st : Buffer)
    (h : st.sameLengths) : (readLoop events st).sameLengths := by
  induction events generalizing st with
  | nil => exact h
  | cons e rest ih =>
    cases e with
    | serialExc => exact h
    | line l =>
      cases hd : decodeFrame l with
      | ok d =>
        obtain ⟨g, f, i, v, s⟩ := d
        simp only [readLoop, hd]
        exact ih _ (Buffer.push_sameLengths h f i v s g)
      | error e =>
        cases e <;> simp only [readLoop, hd] <;>
          first | exact ih _ h | exact h

/-- C9: all five parallel sequences of the Sample Buffer (the three
per-channel value lists, the timestamp list and the gain-label list) have
equal length at every observation point of the acquisition loop (the state
after any prefix of the delivered events), and every acquisition run clears
them all to length 0 at loop entry, independently of whatever a prior run
left in the buffer. -/
theorem claim9_parallel_lists_invariant :
    (∀ (events : List ReadEvent) (k : ℕ),
      (readLoop (events.take k) Buffer.empty).sameLengths) ∧
    (∀ (events : List ReadEvent) (st st' : Buffer),
      read events st = read events st') ∧
    (∀ st : Buffer, read [] st = Buffer.empty) :=
  ⟨fun events k =>
      readLoop_sameLengths (events.take k) Buffer.empty ⟨rfl, rfl, rfl, rfl⟩,
    fun _ _ _ => rfl, fun _ => rfl⟩

/-- C8: if the connection raises `SerialException` on the third read after
two successfully decoded frames, the loop terminates immediately: the
buffer holds exactly the two decoded samples, every later event is ignored,
and the call returns normally (a value, not a propagated exception),
whatever the buffer held before the run. -/
theorem claim8_connection_lost_keeps_samples (l1 l2 : String)
    (g1 g2 : String) (f1 i1 v1 s1 f2 i2 v2 s2 : ℚ)
    (h1 : decodeFrame l1 = .ok (g1, f1, i1, v1, s1))
    (h2 : decodeFrame l2 = .ok (g2, f2, i2, v2, s2))
    (rest : List ReadEvent) (st : Buffer) :
    read (.line l1 :: .line l2 :: .serialExc :: rest) st =
      ⟨[f1, f2], [i1, i2], [v1, v2], [s1, s2], [g1, g2]⟩ := by
  rw [read, listclear]
  simp only [readLoop, h1, h2]
  simp [Buffer.push, Buffer.empty]

theorem decodeFrame_med_example :
    decodeFrame "100 40 2500 16" = .ok ("MED", 4, 8/5, 12/5, 5/2) := by
  rw [decodeFrame, sensorRead_fourField_example]
  simp [convertGain_med_example]

theorem sensorRead_lowGain_example :
    sensorRead "200 80 3000 0" = .ok ⟨200, 80, 120, 3, "0"⟩ := by
  have h : splitSpace (rstrip "200 80 3000 0") = ["200", "80", "3000", "0"] := by
    decide
  have h1 : pyInt "200" = some 200 := by decide
  have h2 : pyInt "80" = some 80 := by decide
  have h3 : pyInt "3000" = some 3000 := by decide
  rw [sensorRead, h, sensorReadFields, h1, h2, h3]
  norm_num [RawFrame.mk.injEq]

theorem convertGain_low_example :
    convertGain "0" (200 : ℚ) 80 120 = .ok ("LOW", 200, 80, 120) := by
  have ha : ("0" : String) ≠ "48" := by decide
  have hb : ("0" : String) ≠ "32" := by decide
  have hd : ("0" : String) ≠ "16" := by decide
  rw [convertGain, if_neg ha, if_neg hb, if_neg hd, if_pos rfl]

theorem decodeFrame_lowGain_example :
    decodeFrame "200 80 3000 0" = .ok ("LOW", 200, 80, 120, 3) := by
  rw [decodeFrame, sensorRead_lowGain_example]
  simp [convertGain_low_example]

theorem claim8_witness :
    decodeFrame "100 40 2500 16" = .ok ("MED", 4, 8/5, 12/5, 5/2) ∧
    read [.line "100 40 2500 16", .line "200 80 3000 0", .serialExc,
        .line "1 0 5 0"] ⟨[9], [9], [9], [9], ["MAX"]⟩ =
      ⟨[4, 200], [8/5, 80], [12/5, 120], [5/2, 3], ["MED", "LOW"]⟩ :=
  ⟨decodeFrame_med_example,
    claim8_connection_lost_keeps_samples "100 40 2500 16" "200 80 3000 0"
      "MED" "LOW" 4 (8/5) (12/5) (5/2) 200 80 120 3
      decodeFrame_med_example decodeFrame_lowGain_example
      [.line "1 0 5 0"] ⟨[9], [9], [9], [9], ["MAX"]⟩⟩

theorem foldl_integerErrorStep_valid (gh : List String) (acc : Option ℚ)
    (hne : gh ≠ [])
    (hv : ∀ g ∈ gh, g ∈ (["LOW", "MED", "HIGH", "MAX"] : List String)) :
    gh.foldl integerErrorStep acc =
      some (1/2 / specMultiplier (gh.getLastD "")) := by
  induction gh generalizing acc with
  | nil => cases hne rfl
  | cons g rest ih =>
    cases rest with
    | nil =>
      have hg := hv g (by simp)
      fin_cases hg <;> simp [integerErrorStep, specMultiplier]
    | cons g2 r2 =>
      rw [List.foldl_cons,
        ih (integerErrorStep acc g) (by simp) (fun x hx => hv x (by simp [hx]))]
      simp [List.getLastD_cons]

theorem integerError_uses_last_gain (gh : List String) (hne : gh ≠ [])
    (hv : ∀ g ∈ gh, g ∈ (["LOW", "MED", "HIGH", "MAX"] : List String)) :
    integerError gh = .ok (1/2 / specMultiplier (gh.getLastD "")) := by
  rw [integerError, foldl_integerErrorStep_valid gh none hne hv]

/-- C2: for a channel with at least two samples and a non-empty gain
history of recognized labels, the combined (total) error equals
√(standard-error² + quantization-error²), where the standard error is the
Bessel-corrected sample standard deviation divided by √n and the
quantization error is 0.5 divided by the multiplier of the gain level of the
most recently appended sample (the last label of the history), the gains of
all earlier samples being ignored. -/
theorem claim2_total_error_quadrature (xs : List ℚ) (gh : List String)
    (hxs : 2 ≤ xs.length) (hne : gh ≠ [])
    (hv : ∀ g ∈ gh, g ∈ (["LOW", "MED", "HIGH", "MAX"] : List String)) :
    totalError xs gh =
      .ok (some (Real.sqrt
        ((Real.sqrt ((sqDevSum xs / ((xs.length : ℚ) - 1) : ℚ) : ℝ) /
            Real.sqrt (xs.length : ℝ)) ^ 2 +
          ((1/2 / specMultiplier (gh.getLastD "") : ℚ) : ℝ) ^ 2))) := by
  have hstd : npStdD1 xs =
      some (Real.sqrt ((sqDevSum xs / ((xs.length : ℚ) - 1) : ℚ) : ℝ)) := by
    rw [npStdD1, if_neg (by omega)]
  rw [totalError, fluctuationError, hstd,
    integerError_uses_last_gain gh hne hv]
  simp

theorem claim2_witness :
    (2 ≤ ([1, 2, 3] : List ℚ).length) ∧
    totalError ([1, 2, 3] : List ℚ) ["MED"] =
      .ok (some (Real.sqrt
        ((Real.sqrt ((sqDevSum ([1, 2, 3] : List ℚ) /
              ((([1, 2, 3] : List ℚ).length : ℚ) - 1) : ℚ) : ℝ) /
            Real.sqrt (([1, 2, 3] : List ℚ).length : ℝ)) ^ 2 +
          ((1/2 / specMultiplier ((["MED"] : List String).getLastD "") : ℚ) : ℝ) ^ 2))) :=
  ⟨by decide, claim2_total_error_quadrature [1, 2, 3] ["MED"] (by decide)
    (by decide) (by decide)⟩

end LightSensor
